import Mathlib

/-!
Verification of `gryds/interpolators/bspline_cuda.py`: the
`BSplineInterpolatorCUDA` adapter that binds an N-dimensional image to a
default interpolation configuration and exposes `sample`, `resample` and
`transform`, forwarding the actual interpolation to an external GPU kernel
(`cupyx.scipy.ndimage.map_coordinates`).

The embedding models:
  * numpy arrays as `NDArray` (shape, dtype tag, flat row-major data);
  * Python scalar arguments (which may be `None`, a string, an int or a
    number) as `PyVal`, with Python truthiness as `truthy`;
  * the external collaborators (the GPU kernel, and the `Grid` operations
    `scaled_to` / `transform`, whose code is not part of this file) as the
    fields of an explicit environment `Env`;
  * CPU/GPU transfers (`cp.array`, `cp.asnumpy`) as the identity on values.

Fallible numpy operations (`reshape`) and the kernel call return `Option`.
-/

/-- A numpy dtype tag.  Only the distinction between the configured
precision and everything else matters here. -/
inductive Dtype where
  | float64 : Dtype
  | float32 : Dtype
  | int64 : Dtype
  | uint8 : Dtype
deriving DecidableEq, Repr

/-- Modelled from the spec: `DTYPE`, the process-wide configured precision
from `gryds/config.py` (not under `src/`); the spec fixes only that it is a
single process-wide precision to which every output is cast. -/
def DTYPE : Dtype := Dtype.float64

/-- A numpy N-dimensional array: a shape, a dtype tag and the flat
row-major (C-order) data.  Scalar entries are modelled as rationals. -/
structure NDArray where
  shape : List Nat
  dtype : Dtype
  data : List Rat
deriving DecidableEq, Repr

/-- `np.ndarray.ndim`: the number of axes. -/
def NDArray.ndim (a : NDArray) : Nat := a.shape.length

/-- `np.ndarray.size`: the total number of elements. -/
def NDArray.size (a : NDArray) : Nat := a.shape.prod

/-- Well-formedness of the flat representation: the data list has exactly
`size` elements. -/
def NDArray.wf (a : NDArray) : Prop := a.data.length = a.shape.prod

instance (a : NDArray) : Decidable a.wf := by
  unfold NDArray.wf; infer_instance

/-- `ndarray.astype(d)`: cast to dtype `d`.  The numeric coercion of the
stored values is dtype-dependent rounding; it is modelled as the identity
on the stored rationals, only the dtype tag changes. -/
def NDArray.astype (a : NDArray) (d : Dtype) : NDArray :=
  { a with dtype := d }

/-- `ndarray.reshape(n, -1)`: reinterpret the flat data as a 2-D array
with `n` rows.  numpy raises unless `n` is nonzero and divides the total
size; the column count is inferred. -/
def NDArray.reshape2 (a : NDArray) (n : Nat) : Option NDArray :=
  if n ≠ 0 ∧ a.data.length % n = 0 then
    some { shape := [n, a.data.length / n], dtype := a.dtype, data := a.data }
  else
    none

/-- `ndarray.reshape(shape)` with a fully explicit target shape: numpy
raises unless the total size is unchanged. -/
def NDArray.reshapeTo (a : NDArray) (s : List Nat) : Option NDArray :=
  if a.data.length = s.prod then
    some { shape := s, dtype := a.dtype, data := a.data }
  else
    none

/-- `np.transpose` on a 2-D array: swap the axes.  Entry `(j, i)` of the
result is entry `(i, j)` of the argument.  The source only ever applies it
to the 2-D result of `reshape(ndim, -1)`; on other ranks this model
returns the argument unchanged. -/
def NDArray.transpose2 (a : NDArray) : NDArray :=
  match a.shape with
  | [n, m] =>
      { shape := [m, n], dtype := a.dtype,
        data := (List.range m).flatMap fun j =>
          (List.range n).map fun i => a.data.getD (i * m + j) 0 }
  | _ => a

/-- A Python value as it appears in the `mode` / `order` / `cval`
positions: a string, an int, a number, or `None`. -/
inductive PyVal where
  | vstr : String → PyVal
  | vint : Int → PyVal
  | vrat : Rat → PyVal
  | vnone : PyVal
deriving DecidableEq, Repr

/-- Python truthiness of a `PyVal`: `None`, `''`, `0` and `0.0` are falsy,
everything else is truthy. -/
def truthy : PyVal → Bool
  | .vstr s => s ≠ ""
  | .vint n => n ≠ 0
  | .vrat q => q ≠ 0
  | .vnone => false

/-- The override-resolution pattern of the source,
`x if x else default`: the override is used when truthy, otherwise the
default. -/
def resolve (override default : PyVal) : PyVal :=
  if truthy override then override else default

/-- An opaque spatial transform object: the adapter never inspects it,
only forwards it to the `Grid` collaborator. -/
structure Transform where
  id : Nat
deriving DecidableEq, Repr

/-- Modelled from the spec: the `Grid` collaborator
(`gryds/interpolators/grid.py`, not under `src/`).  The spec requires only
an accessible coordinate array `grid.grid` shaped `(ndims, ...)`; the
behaviour of its operations lives in `Env`. -/
structure Grid where
  grid : NDArray
deriving DecidableEq, Repr

/-- The external collaborators, bundled as an explicit environment:

  * `kernel` models `cupyx.scipy.ndimage.map_coordinates`
    `(input, coordinates, mode, order, cval)`; it may fail (invalid mode
    or order, shape problems), modelled as `none`;
  * `scaled_to` models `Grid.scaled_to(shape)` (modelled from the spec:
    the `Grid` code is not under `src/`);
  * `gridTransform` models `Grid.transform(*transforms)` (modelled from
    the spec, likewise);
  * `defaultGrid` models the base `Interpolator` constructor
    (`gryds/interpolators/base.py`, not under `src/`) attaching the
    image's default sampling grid. -/
structure Env where
  kernel : NDArray → NDArray → PyVal → PyVal → PyVal → Option NDArray
  scaled_to : Grid → List Nat → Grid
  gridTransform : Grid → List Transform → Grid
  defaultGrid : List Nat → Grid

/-- The kernel contract stated by the spec for the external interpolation
primitive: whenever it succeeds it returns one sampled intensity per row
of the coordinate list it was given. -/
def KernelPerCoord (env : Env) : Prop :=
  ∀ img coords m o c r, env.kernel img coords m o c = some r →
    r.data.length = coords.shape.headD 0

/-- A kernel that never fails (on top of returning one value per
coordinate row). -/
def KernelTotal (env : Env) : Prop :=
  ∀ img coords m o c, ∃ r, env.kernel img coords m o c = some r ∧
    r.data.length = coords.shape.headD 0

/-- The adapter: the wrapped image, its default sampling grid (held by the
base `Interpolator` collaborator) and the three configuration defaults
stored by `__init__`. -/
structure BSplineInterpolatorCUDA where
  image : NDArray
  grid : Grid
  default_mode : PyVal
  default_order : PyVal
  default_cval : PyVal
deriving Repr

namespace BSplineInterpolatorCUDA

/-- `BSplineInterpolatorCUDA.__init__(image, mode='constant', order=1,
cval=0)`: stores the image (and, via the base class, its default grid) and
the three defaults, with no validation whatsoever. -/
def init (env : Env) (image : NDArray) (mode order cval : PyVal) :
    BSplineInterpolatorCUDA :=
  { image := image
    grid := env.defaultGrid image.shape
    default_mode := mode
    default_order := order
    default_cval := cval }

/-- The three `new_mode / new_order / new_cval` lines at the top of
`sample`: each override is taken if truthy, else the instance default. -/
def effectiveConfig (self : BSplineInterpolatorCUDA)
    (mode order cval : PyVal) : PyVal × PyVal × PyVal :=
  (resolve mode self.default_mode,
   resolve order self.default_order,
   resolve cval self.default_cval)

/-- `sample(points, mode=None, order=None, cval=None)`: resolve the
configuration, reshape `points` to `(image.ndim, -1)` and transpose it,
call the kernel, reshape the flat result back to the image's shape and
cast to `DTYPE`.  `none` models a raised exception (reshape failure or a
kernel-reported error). -/
def sample (env : Env) (self : BSplineInterpolatorCUDA) (points : NDArray)
    (mode order cval : PyVal) : Option NDArray :=
  let new_mode := resolve mode self.default_mode
  let new_order := resolve order self.default_order
  let new_cval := resolve cval self.default_cval
  match points.reshape2 self.image.ndim with
  | none => none
  | some reshaped =>
    let pts := reshaped.transpose2
    match env.kernel self.image pts new_mode new_order new_cval with
    | none => none
    | some sample_gpu =>
      match sample_gpu.reshapeTo self.image.shape with
      | none => none
      | some s => some (s.astype DTYPE)

/-- `resample(grid, mode=None, order=None, cval=None)`: rescale the grid
to the image's shape, sample at its coordinate array, cast to `DTYPE`. -/
def resample (env : Env) (self : BSplineInterpolatorCUDA) (grid : Grid)
    (mode order cval : PyVal) : Option NDArray :=
  let rescaled_grid := env.scaled_to grid self.image.shape
  (sample env self rescaled_grid.grid mode order cval).map
    fun a => a.astype DTYPE

/-- `kwargs['k'] if 'k' in kwargs else None` on a `**kwargs` dictionary,
modelled as an association list. -/
def getKw (kwargs : List (String × PyVal)) (key : String) : PyVal :=
  match kwargs.find? (fun p => p.1 = key) with
  | some p => p.2
  | none => .vnone

/-- `transform(*transforms, **kwargs)`: extract `mode`, `order`, `cval`
from the keyword dictionary (`None` when absent, every other key is
ignored), transform the instance's own grid, resample at it, cast to
`DTYPE`. -/
def transform (env : Env) (self : BSplineInterpolatorCUDA)
    (transforms : List Transform) (kwargs : List (String × PyVal)) :
    Option NDArray :=
  let mode := getKw kwargs "mode"
  let order := getKw kwargs "order"
  let cval := getKw kwargs "cval"
  let transformed_grid := env.gridTransform self.grid transforms
  (resample env self transformed_grid mode order cval).map
    fun a => a.astype DTYPE

/-- State-threaded form of `sample`: Python methods act on the attribute
store of `self`; since the body of `sample` contains no attribute
assignment, the translation returns the store unchanged next to the
result. -/
def sampleSt (env : Env) (self : BSplineInterpolatorCUDA)
    (points : NDArray) (mode order cval : PyVal) :
    BSplineInterpolatorCUDA × Option NDArray :=
  (self, sample env self points mode order cval)

/-- State-threaded form of `resample` (no attribute assignment in the
source body). -/
def resampleSt (env : Env) (self : BSplineInterpolatorCUDA) (grid : Grid)
    (mode order cval : PyVal) :
    BSplineInterpolatorCUDA × Option NDArray :=
  (self, resample env self grid mode order cval)

/-- State-threaded form of `transform` (no attribute assignment in the
source body). -/
def transformSt (env : Env) (self : BSplineInterpolatorCUDA)
    (transforms : List Transform) (kwargs : List (String × PyVal)) :
    BSplineInterpolatorCUDA × Option NDArray :=
  (self, transform env self transforms kwargs)

/-- The spec's description of `resample`, written from its words alone:
"rescales the given grid's coordinate extents to match the wrapped image's
shape, then calls `sample` on the rescaled grid's coordinate array with
the same configuration overrides." -/
def resampleSpec (env : Env) (self : BSplineInterpolatorCUDA) (grid : Grid)
    (mode order cval : PyVal) : Option NDArray :=
  sample env self ((env.scaled_to grid self.image.shape).grid) mode order cval

/-- The spec's description of `transform`, written from its words alone:
"applies the sequence of transforms to the instance's own default grid,
then calls `resample` with that transformed grid and the given
overrides." -/
def transformSpec (env : Env) (self : BSplineInterpolatorCUDA)
    (transforms : List Transform) (kwargs : List (String × PyVal)) :
    Option NDArray :=
  resample env self (env.gridTransform self.grid transforms)
    (getKw kwargs "mode") (getKw kwargs "order") (getKw kwargs "cval")

end BSplineInterpolatorCUDA

/-! Concrete instances used to witness the theorems below. -/

/-- A 2×2 checkerboard test image (stored with a non-`DTYPE` dtype). -/
def imgW : NDArray :=
  { shape := [2, 2], dtype := Dtype.uint8, data := [0, 1, 1, 0] }

/-- A points array of shape `(ndims, 2, 2)` for `imgW`: one coordinate
pair per pixel. -/
def ptsW : NDArray :=
  { shape := [2, 2, 2], dtype := Dtype.float64,
    data := [0, 0, 1, 1, 0, 1, 0, 1] }

/-- A points array whose 7 elements are not divisible by `imgW.ndim`. -/
def ptsBadW : NDArray :=
  { shape := [7], dtype := Dtype.float64, data := [0, 0, 0, 1, 1, 0, 1] }

/-- A concrete environment: its kernel always succeeds, returns one value
per coordinate row, and distinguishes spline order 0 (all 37) from any
other order (all 68); the grid operations build grids of the right
coordinate-array shape. -/
def envW : Env :=
  { kernel := fun _img coords _m o _c =>
      some { shape := [coords.shape.headD 0], dtype := Dtype.float64,
             data := List.replicate (coords.shape.headD 0)
               (if o = PyVal.vint 0 then (37 : Rat) else 68) }
    scaled_to := fun _g s =>
      { grid := { shape := s.length :: s, dtype := Dtype.float64,
                  data := List.replicate (s.length * s.prod) 0 } }
    gridTransform := fun g ts =>
      { grid := { shape := g.grid.shape, dtype := g.grid.dtype,
                  data := g.grid.data.map fun x => x + ts.length } }
    defaultGrid := fun s =>
      { grid := { shape := s.length :: s, dtype := Dtype.float64,
                  data := List.replicate (s.length * s.prod) 0 } } }

/-- An adapter over `imgW` with the constructor's default configuration
(`mode='constant'`, `order=1`, `cval=0`). -/
def selfW : BSplineInterpolatorCUDA :=
  BSplineInterpolatorCUDA.init envW imgW
    (.vstr "constant") (.vint 1) (.vrat 0)

/-- The same adapter but constructed with default `order=0`. -/
def self0W : BSplineInterpolatorCUDA :=
  BSplineInterpolatorCUDA.init envW imgW
    (.vstr "constant") (.vint 0) (.vrat 0)

/-- A concrete grid for the `resample` witnesses. -/
def gridW : Grid := envW.defaultGrid [2, 2]

/-! Helper lemmas. -/

open BSplineInterpolatorCUDA

/-- `None` is falsy, so an absent override resolves to the default. -/
theorem resolve_vnone (d : PyVal) : resolve .vnone d = d := rfl

/-- Any falsy override resolves to the default. -/
theorem resolve_falsy (v d : PyVal) (h : truthy v = false) :
    resolve v d = d := by
  simp [resolve, h]

/-- Whenever `sample` succeeds its result has dtype `DTYPE` (the last step
of the source is `astype(DTYPE)`). -/
theorem sample_dtype (env : Env) (self : BSplineInterpolatorCUDA)
    (points : NDArray) (m o c : PyVal) (r : NDArray)
    (h : sample env self points m o c = some r) : r.dtype = DTYPE := by
  simp only [sample] at h
  split at h
  · cases h
  · split at h
    · cases h
    · split at h
      · cases h
      · cases h; rfl

/-- Re-casting a `sample` result to `DTYPE` is the identity. -/
theorem sample_map_astype (env : Env) (self : BSplineInterpolatorCUDA)
    (points : NDArray) (m o c : PyVal) :
    (sample env self points m o c).map (fun a => a.astype DTYPE)
      = sample env self points m o c := by
  cases h : sample env self points m o c with
  | none => rfl
  | some r =>
    have hd := sample_dtype env self points m o c r h
    cases r with
    | mk sh dt da =>
      simp only [Option.map_some']
      simp only [NDArray.astype]
      simp at hd
      rw [hd]

/-- Whenever `resample` succeeds its result has dtype `DTYPE`. -/
theorem resample_dtype (env : Env) (self : BSplineInterpolatorCUDA)
    (g : Grid) (m o c : PyVal) (r : NDArray)
    (h : resample env self g m o c = some r) : r.dtype = DTYPE := by
  simp only [resample] at h
  cases h1 : sample env self (env.scaled_to g self.image.shape).grid m o c with
  | none => rw [h1] at h; cases h
  | some a =>
    rw [h1] at h
    simp only [Option.map_some'] at h
    cases h
    rfl

/-- Re-casting a `resample` result to `DTYPE` is the identity. -/
theorem resample_map_astype (env : Env) (self : BSplineInterpolatorCUDA)
    (g : Grid) (m o c : PyVal) :
    (resample env self g m o c).map (fun a => a.astype DTYPE)
      = resample env self g m o c := by
  cases h : resample env self g m o c with
  | none => rfl
  | some r =>
    have hd := resample_dtype env self g m o c r h
    cases r with
    | mk sh dt da =>
      simp only [Option.map_some']
      simp only [NDArray.astype]
      simp at hd
      rw [hd]

/-- The concrete environment's kernel is total and returns one value per
coordinate row. -/
theorem envW_kernel_total : KernelTotal envW := by
  intro img coords m o c
  exact ⟨_, rfl, by simp [envW]⟩

/-- Evaluation of `sample` when the flat size of `points` is
`image.ndim * q` for a total kernel: the call succeeds with an
image-shaped result exactly when `q` is the image's size, and fails at
the final reshape otherwise. -/
theorem sample_eval_of_div (env : Env) (self : BSplineInterpolatorCUDA)
    (points : NDArray) (m o c : PyVal) (q : Nat) (hk : KernelTotal env)
    (hnz : self.image.ndim ≠ 0)
    (hlen : points.data.length = self.image.ndim * q) :
    (q = self.image.shape.prod →
       (sample env self points m o c).map NDArray.shape
         = some self.image.shape)
    ∧ (q ≠ self.image.shape.prod →
       sample env self points m o c = none) := by
  have hmod : points.data.length % self.image.ndim = 0 := by
    rw [hlen]; exact Nat.mul_mod_right _ _
  have hdiv : points.data.length / self.image.ndim = q := by
    rw [hlen]; exact Nat.mul_div_cancel_left _ (Nat.pos_of_ne_zero hnz)
  have hres : points.reshape2 self.image.ndim
      = some { shape := [self.image.ndim, q],
               dtype := points.dtype, data := points.data } := by
    simp [NDArray.reshape2, hnz, hmod, hdiv]
  obtain ⟨r, hr, hrlen⟩ := hk self.image
      (NDArray.transpose2
        { shape := [self.image.ndim, q],
          dtype := points.dtype, data := points.data })
      (resolve m self.default_mode) (resolve o self.default_order)
      (resolve c self.default_cval)
  have hrlen' : r.data.length = q := by
    rw [hrlen]; simp [NDArray.transpose2]
  constructor
  · intro hq
    have hrt : r.reshapeTo self.image.shape
        = some { shape := self.image.shape, dtype := r.dtype,
                 data := r.data } := by
      simp [NDArray.reshapeTo, hrlen', hq]
    simp only [sample, hres, hr, hrt, Option.map_some', NDArray.astype]
  · intro hq
    have hrt : r.reshapeTo self.image.shape = none := by
      simp only [NDArray.reshapeTo, hrlen']
      rw [if_neg hq]
    simp only [sample, hres, hr, hrt]

/-! The claims. -/

/-- C1: For every call to `sample`, `resample`, or `transform`, the
effective configuration is resolved by taking each per-call override
(`mode`, `order`, `cval`) if it is truthy and falling back to the
instance default otherwise; in particular a falsy override such as
`order=0`, `cval=0`, `mode=None` or `mode=''` is indistinguishable from
"not provided" and is replaced by the instance default. -/
theorem C1_truthy_override_resolution
    (env : Env) (self : BSplineInterpolatorCUDA) (points : NDArray)
    (g : Grid) (ts : List Transform) (m o c mt ot ct : PyVal)
    (hm : truthy m = false) (ho : truthy o = false)
    (hc : truthy c = false) (hmt : truthy mt = true)
    (hot : truthy ot = true) (hct : truthy ct = true) :
    effectiveConfig self mt ot ct = (mt, ot, ct)
    ∧ effectiveConfig self m o c
        = effectiveConfig self .vnone .vnone .vnone
    ∧ sample env self points m o c
        = sample env self points .vnone .vnone .vnone
    ∧ resample env self g m o c
        = resample env self g .vnone .vnone .vnone
    ∧ transform env self ts [("mode", m), ("order", o), ("cval", c)]
        = transform env self ts [] := by
  have hsamp : ∀ pts : NDArray, sample env self pts m o c
      = sample env self pts .vnone .vnone .vnone := by
    intro pts
    simp only [sample, resolve_falsy _ _ hm, resolve_falsy _ _ ho,
      resolve_falsy _ _ hc, resolve_vnone]
  have hresample : ∀ g' : Grid, resample env self g' m o c
      = resample env self g' .vnone .vnone .vnone := by
    intro g'
    simp only [resample, hsamp]
  refine ⟨?_, ?_, hsamp points, hresample g, ?_⟩
  · simp [effectiveConfig, resolve, hmt, hot, hct]
  · simp [effectiveConfig, resolve_falsy _ _ hm, resolve_falsy _ _ ho,
      resolve_falsy _ _ hc, resolve_vnone]
  · have e1 : getKw [("mode", m), ("order", o), ("cval", c)] "mode"
        = m := rfl
    have e2 : getKw [("mode", m), ("order", o), ("cval", c)] "order"
        = o := rfl
    have e3 : getKw [("mode", m), ("order", o), ("cval", c)] "cval"
        = c := rfl
    have e4 : ∀ k : String, getKw [] k = PyVal.vnone := fun _ => rfl
    simp only [transform, e1, e2, e3, e4, hresample]

/-- C1 witness: at a concrete adapter, truthy overrides are taken and the
falsy overrides `mode=''`, `order=0`, `cval=0` behave exactly like the
absent overrides, for `sample`, `resample` and `transform`. -/
theorem C1_truthy_override_resolution_witness :
    effectiveConfig selfW (.vstr "nearest") (.vint 3) (.vrat 5)
        = (.vstr "nearest", .vint 3, .vrat 5)
    ∧ effectiveConfig selfW (.vstr "") (.vint 0) (.vrat 0)
        = effectiveConfig selfW .vnone .vnone .vnone
    ∧ sample envW selfW ptsW (.vstr "") (.vint 0) (.vrat 0)
        = sample envW selfW ptsW .vnone .vnone .vnone
    ∧ resample envW selfW gridW (.vstr "") (.vint 0) (.vrat 0)
        = resample envW selfW gridW .vnone .vnone .vnone
    ∧ transform envW selfW []
          [("mode", .vstr ""), ("order", .vint 0), ("cval", .vrat 0)]
        = transform envW selfW [] [] :=
  C1_truthy_override_resolution envW selfW ptsW gridW []
    (.vstr "") (.vint 0) (.vrat 0) (.vstr "nearest") (.vint 3) (.vrat 5)
    (by decide) (by decide) (by decide) (by decide) (by decide) (by decide)

/-- C2: the claim says an explicit `order=0` override changes the result
relative to the instance default `order=1` whenever the two orders differ
on the image.  The code discards the falsy override: at a concrete
environment whose kernel distinguishes order 0 from order 1 on this very
image (first conjunct), the call with the explicit `order=0` override is
identical to the call with no override (second conjunct). -/
theorem C2_order_zero_override_is_discarded :
    sample envW self0W ptsW .vnone .vnone .vnone
        ≠ sample envW selfW ptsW .vnone .vnone .vnone
    ∧ sample envW selfW ptsW .vnone (.vint 0) .vnone
        = sample envW selfW ptsW .vnone .vnone .vnone := by
  decide

/-- C3: for every points array whose shape is the image's shape behind a
leading `ndims` axis, `sample` flattens and transposes it into a
`(num_points, ndims)` coordinate list for the kernel, and reshapes the
kernel's flat result back to exactly the image's shape, so the returned
array's shape equals the image's shape. -/
theorem C3_sample_shape_roundtrip
    (env : Env) (self : BSplineInterpolatorCUDA) (points : NDArray)
    (m o c : PyVal) (hk : KernelTotal env) (hnd : 0 < self.image.ndim)
    (hsh : points.shape = self.image.ndim :: self.image.shape)
    (hwf : points.wf) :
    (points.reshape2 self.image.ndim).map (fun cs => cs.transpose2.shape)
        = some [self.image.shape.prod, self.image.ndim]
    ∧ (sample env self points m o c).map NDArray.shape
        = some self.image.shape := by
  have hnz : self.image.ndim ≠ 0 := Nat.pos_iff_ne_zero.mp hnd
  have hlen : points.data.length
      = self.image.ndim * self.image.shape.prod := by
    have hwf' : points.data.length = points.shape.prod := hwf
    rw [hwf', hsh, List.prod_cons]
  have hmod : points.data.length % self.image.ndim = 0 := by
    rw [hlen]; exact Nat.mul_mod_right _ _
  have hdiv : points.data.length / self.image.ndim
      = self.image.shape.prod := by
    rw [hlen]; exact Nat.mul_div_cancel_left _ (Nat.pos_of_ne_zero hnz)
  constructor
  · have hres : points.reshape2 self.image.ndim
        = some { shape := [self.image.ndim, self.image.shape.prod],
                 dtype := points.dtype, data := points.data } := by
      simp [NDArray.reshape2, hnz, hmod, hdiv]
    rw [hres]
    simp [NDArray.transpose2]
  · exact (sample_eval_of_div env self points m o c
      self.image.shape.prod hk hnz hlen).1 rfl

/-- C3 witness: a concrete `(2, 2, 2)` points array over the 2×2 image is
flattened to a `(4, 2)` coordinate list, and the sampled result has the
image's shape. -/
theorem C3_sample_shape_roundtrip_witness :
    (ptsW.reshape2 selfW.image.ndim).map (fun cs => cs.transpose2.shape)
        = some [selfW.image.shape.prod, selfW.image.ndim]
    ∧ (sample envW selfW ptsW .vnone .vnone .vnone).map NDArray.shape
        = some selfW.image.shape :=
  C3_sample_shape_roundtrip envW selfW ptsW .vnone .vnone .vnone
    envW_kernel_total (by decide) (by decide) (by decide)

/-- C4: for every grid and every combination of overrides,
`resample(grid, mode, order, cval)` equals `sample` applied to the
coordinate array of `grid.scaled_to(image.shape)` with the same
overrides forwarded unchanged. -/
theorem C4_resample_refines_spec
    (env : Env) (self : BSplineInterpolatorCUDA) (g : Grid)
    (m o c : PyVal) :
    resample env self g m o c = resampleSpec env self g m o c := by
  simp only [resample, resampleSpec, sample_map_astype]

/-- C5: for every sequence of transforms and every keyword dictionary,
`transform(*transforms, **kwargs)` equals `resample` applied to
`self.grid.transform(*transforms)` with the extracted `mode` / `order` /
`cval` overrides forwarded unchanged. -/
theorem C5_transform_refines_spec
    (env : Env) (self : BSplineInterpolatorCUDA) (ts : List Transform)
    (kwargs : List (String × PyVal)) :
    transform env self ts kwargs = transformSpec env self ts kwargs := by
  simp only [transform, transformSpec, resample_map_astype]

/-- C6: for every input image dtype and every operation (`sample`,
`resample`, `transform`), the returned array's dtype equals the
process-wide configured precision `DTYPE`. -/
theorem C6_output_dtype_is_DTYPE
    (env : Env) (self : BSplineInterpolatorCUDA) (points : NDArray)
    (g : Grid) (ts : List Transform) (kwargs : List (String × PyVal))
    (m o c : PyVal) (r1 r2 r3 : NDArray)
    (h1 : sample env self points m o c = some r1)
    (h2 : resample env self g m o c = some r2)
    (h3 : transform env self ts kwargs = some r3) :
    r1.dtype = DTYPE ∧ r2.dtype = DTYPE ∧ r3.dtype = DTYPE := by
  refine ⟨sample_dtype env self points m o c r1 h1,
    resample_dtype env self g m o c r2 h2, ?_⟩
  simp only [transform] at h3
  cases hr : resample env self (env.gridTransform self.grid ts)
      (getKw kwargs "mode") (getKw kwargs "order")
      (getKw kwargs "cval") with
  | none => rw [hr] at h3; cases h3
  | some a =>
    rw [hr] at h3
    simp only [Option.map_some'] at h3
    cases h3
    rfl

/-- C6 witness: on the concrete `uint8` image all three operations return
a `DTYPE` array. -/
theorem C6_output_dtype_is_DTYPE_witness :
    NDArray.dtype { shape := [2, 2], dtype := Dtype.float64,
                    data := [68, 68, 68, 68] } = DTYPE
    ∧ NDArray.dtype { shape := [2, 2], dtype := Dtype.float64,
                      data := [68, 68, 68, 68] } = DTYPE
    ∧ NDArray.dtype { shape := [2, 2], dtype := Dtype.float64,
                      data := [68, 68, 68, 68] } = DTYPE :=
  C6_output_dtype_is_DTYPE envW selfW ptsW gridW [] []
    .vnone .vnone .vnone _ _ _ (by decide) (by decide) (by decide)

/-- C7: for every `mode`, `order` and `cval` argument, including invalid
ones such as an unknown mode string or an unsupported order, construction
succeeds (the constructor is a total function) and stores the values
unchanged as defaults; no validation happens before an operation reaches
the kernel call, whose effective configuration with no overrides is
exactly the stored triple. -/
theorem C7_construction_stores_unvalidated
    (env : Env) (img : NDArray) (m o c : PyVal) :
    ((init env img m o c).default_mode = m
     ∧ (init env img m o c).default_order = o
     ∧ (init env img m o c).default_cval = c
     ∧ (init env img m o c).image = img)
    ∧ effectiveConfig (init env img m o c) .vnone .vnone .vnone
        = (m, o, c) :=
  ⟨⟨rfl, rfl, rfl, rfl⟩, rfl⟩

/-- C8: no call to `sample`, `resample` or `transform` mutates the
adapter: the state-threaded forms return the instance unchanged, and each
operation's result is a pure function of the instance's five fields
(image, grid, defaults) and the call's arguments. -/
theorem C8_operations_pure_no_mutation
    (env : Env) (self self' : BSplineInterpolatorCUDA) (points : NDArray)
    (g : Grid) (ts : List Transform) (kwargs : List (String × PyVal))
    (m o c : PyVal)
    (him : self.image = self'.image) (hgr : self.grid = self'.grid)
    (hdm : self.default_mode = self'.default_mode)
    (hdo : self.default_order = self'.default_order)
    (hdc : self.default_cval = self'.default_cval) :
    (sampleSt env self points m o c).1 = self
    ∧ (resampleSt env self g m o c).1 = self
    ∧ (transformSt env self ts kwargs).1 = self
    ∧ sample env self points m o c = sample env self' points m o c
    ∧ resample env self g m o c = resample env self' g m o c
    ∧ transform env self ts kwargs = transform env self' ts kwargs := by
  have hss : self = self' := by
    cases self; cases self'; simp_all
  subst hss
  exact ⟨rfl, rfl, rfl, rfl, rfl, rfl⟩

/-- C8 witness: the concrete adapter is returned unchanged by the
state-threaded operations, and results agree with themselves. -/
theorem C8_operations_pure_no_mutation_witness :
    (sampleSt envW selfW ptsW .vnone .vnone .vnone).1 = selfW
    ∧ (resampleSt envW selfW gridW .vnone .vnone .vnone).1 = selfW
    ∧ (transformSt envW selfW [] []).1 = selfW
    ∧ sample envW selfW ptsW .vnone .vnone .vnone
        = sample envW selfW ptsW .vnone .vnone .vnone
    ∧ resample envW selfW gridW .vnone .vnone .vnone
        = resample envW selfW gridW .vnone .vnone .vnone
    ∧ transform envW selfW [] [] = transform envW selfW [] [] :=
  C8_operations_pure_no_mutation envW selfW selfW ptsW gridW [] []
    .vnone .vnone .vnone rfl rfl rfl rfl rfl

/-- C9: `transform` extracts only the keyword arguments `mode`, `order`
and `cval` from its keyword dictionary and silently discards any other
keyword argument (e.g. a misspelled `oder=0`) without raising an
error. -/
theorem C9_unknown_kwargs_silently_discarded
    (env : Env) (self : BSplineInterpolatorCUDA) (ts : List Transform)
    (key : String) (v : PyVal) (kwargs : List (String × PyVal))
    (h1 : key ≠ "mode") (h2 : key ≠ "order") (h3 : key ≠ "cval") :
    transform env self ts ((key, v) :: kwargs)
      = transform env self ts kwargs := by
  have gk : ∀ k2 : String, key ≠ k2 →
      getKw ((key, v) :: kwargs) k2 = getKw kwargs k2 := by
    intro k2 hne
    simp [getKw, List.find?, hne]
  simp only [transform, gk _ h1, gk _ h2, gk _ h3]

/-- C9 witness: the misspelled keyword `oder=0` is discarded and the call
behaves exactly like the call without it. -/
theorem C9_unknown_kwargs_silently_discarded_witness :
    transform envW selfW [] [("oder", PyVal.vint 0)]
      = transform envW selfW [] [] :=
  C9_unknown_kwargs_silently_discarded envW selfW [] "oder"
    (PyVal.vint 0) [] (by decide) (by decide) (by decide)

/-- C10: `sample` derives the coordinate dimensionality from the image's
`ndim`, not from the points array's own leading axis: any points array
whose total element count is `image.ndim` times the image's element count
is accepted regardless of its original axis layout, while a points array
whose total size is not divisible by `image.ndim`, or whose point count
differs from the image's size, makes `sample` fail with a reshape error
rather than an up-front shape check. -/
theorem C10_reshape_driven_acceptance
    (env : Env) (self : BSplineInterpolatorCUDA) (points : NDArray)
    (m o c : PyVal) (hk : KernelTotal env) (hnd : 0 < self.image.ndim) :
    (points.data.length = self.image.ndim * self.image.shape.prod →
       (sample env self points m o c).map NDArray.shape
         = some self.image.shape)
    ∧ (points.data.length % self.image.ndim ≠ 0 →
       sample env self points m o c = none)
    ∧ (∀ q : Nat, points.data.length = self.image.ndim * q →
       q ≠ self.image.shape.prod →
       sample env self points m o c = none) := by
  have hnz : self.image.ndim ≠ 0 := Nat.pos_iff_ne_zero.mp hnd
  refine ⟨?_, ?_, ?_⟩
  · intro hlen
    exact (sample_eval_of_div env self points m o c
      self.image.shape.prod hk hnz hlen).1 rfl
  · intro hmod
    have hres : points.reshape2 self.image.ndim = none := by
      simp only [NDArray.reshape2]
      rw [if_neg]
      intro hcon
      exact hmod hcon.2
    simp only [sample, hres]
  · intro q hlen hq
    exact (sample_eval_of_div env self points m o c q hk hnz hlen).2 hq

/-- C10 witness: a points array with `2 * 4` elements over the 2×2 image
is accepted and sampled to an image-shaped result, while one with 7
elements fails with a reshape error. -/
theorem C10_reshape_driven_acceptance_witness :
    ((sample envW selfW ptsW .vnone .vnone .vnone).map NDArray.shape
        = some selfW.image.shape)
    ∧ sample envW selfW ptsBadW .vnone .vnone .vnone = none :=
  ⟨(C10_reshape_driven_acceptance envW selfW ptsW .vnone .vnone .vnone
      envW_kernel_total (by decide)).1 (by decide),
   (C10_reshape_driven_acceptance envW selfW ptsBadW .vnone .vnone .vnone
      envW_kernel_total (by decide)).2.1 (by decide)⟩
